import Mathlib

/-!
Verification of the zerodrive-mcp-server request execution engine.

The definitions below are a shallow embedding of the TypeScript sources:
  - src/src/api/client.ts          (apiRequest, handleErrorResponse,
                                    buildQueryString, apiRequestWithRetry)
  - src/errors/base.ts             (error classes, isRetryableError, wrapError)
  - src/errors (api utilities)     (calculateRetryDelay)
  - QueryBuilder utility           (appendIfDefined / appendNumber / appendBoolean,
                                    QueryBuilder.from, build)
  - src/src/utils/request-builder.ts (RequestBodyBuilder)
  - src/src/utils/upload-handler.ts  (uploadFile response handling)

JavaScript runtime values are modelled explicitly (undefined, null,
booleans, numbers, strings, arrays, objects); machine-level details that
no claim depends on (e.g. floating point width) are modelled with exact
arithmetic.
-/

namespace ZeroDrive

/-- A JavaScript scalar as it appears in the query-builder signatures:
`string | number | boolean | undefined | null`. -/
inductive QVal where
  | undef
  | null
  | bool (b : Bool)
  | num (n : Int)
  | str (s : String)
  deriving DecidableEq, Repr

/-- JavaScript `String(value)` on a scalar. -/
def QVal.jsToString : QVal → String
  | .undef => "undefined"
  | .null => "null"
  | .bool b => cond b "true" "false"
  | .num n => toString n
  | .str s => s

/-- UTF-8 bytes of a code point (standard UTF-8 encoding). -/
def utf8Bytes (n : Nat) : List Nat :=
  if n < 0x80 then [n]
  else if n < 0x800 then [0xC0 + n / 64, 0x80 + n % 64]
  else if n < 0x10000 then [0xE0 + n / 4096, 0x80 + (n / 64) % 64, 0x80 + n % 64]
  else [0xF0 + n / 262144, 0x80 + (n / 4096) % 64, 0x80 + (n / 64) % 64, 0x80 + n % 64]

/-- Upper-case hex digit for a value below 16. -/
def hexDigit (n : Nat) : Char :=
  if n < 10 then Char.ofNat (48 + n) else Char.ofNat (55 + n)

/-- Percent-encoding of one byte as in `application/x-www-form-urlencoded`. -/
def percentByte (b : Nat) : String :=
  String.mk ['%', hexDigit (b / 16 % 16), hexDigit (b % 16)]

/-- Whether a byte is left unescaped by the urlencoded serializer
(ASCII alphanumerics and `*`, `-`, `.`, `_`). -/
def urlUnreserved (b : Nat) : Bool :=
  (0x30 ≤ b && b ≤ 0x39) || (0x41 ≤ b && b ≤ 0x5A) || (0x61 ≤ b && b ≤ 0x7A) ||
    b == 0x2A || b == 0x2D || b == 0x2E || b == 0x5F

/-- Serialize one byte: space becomes `+`, unreserved bytes pass through,
everything else is percent-encoded. -/
def urlencodeByte (b : Nat) : String :=
  if b == 0x20 then "+"
  else if urlUnreserved b then String.mk [Char.ofNat b]
  else percentByte b

/-- The `application/x-www-form-urlencoded` serialization of a string,
as used by `URLSearchParams.toString()`. -/
def urlencode (s : String) : String :=
  String.join ((s.data.flatMap (fun c => utf8Bytes c.toNat)).map urlencodeByte)

/-- A `URLSearchParams` value: the ordered list of appended (key, value) pairs. -/
def SearchParams : Type := List (String × String)

/-- `URLSearchParams.toString()`: each pair is serialized `key=value` with the
urlencoded escaping, and the pairs are joined by `&`. -/
def searchParamsToString (ps : List (String × String)) : String :=
  String.intercalate "&" (ps.map (fun p => urlencode p.1 ++ "=" ++ urlencode p.2))

/-- `QueryBuilder.appendIfDefined`: append a string value if it is not
undefined, not null and not the empty string. -/
def qbAppendIfDefined (ps : List (String × String)) (key : String) (value : QVal) :
    List (String × String) :=
  if value ≠ .undef ∧ value ≠ .null ∧ value ≠ .str "" then
    ps ++ [(key, value.jsToString)]
  else ps

/-- `QueryBuilder.appendNumber`: append `String(value)` if the value is not
undefined and not null. -/
def qbAppendNumber (ps : List (String × String)) (key : String) (value : QVal) :
    List (String × String) :=
  if value ≠ .undef ∧ value ≠ .null then ps ++ [(key, value.jsToString)] else ps

/-- `QueryBuilder.appendBoolean`: append `String(value)` if the value is not
undefined. -/
def qbAppendBoolean (ps : List (String × String)) (key : String) (value : QVal) :
    List (String × String) :=
  if value ≠ .undef then ps ++ [(key, value.jsToString)] else ps

/-- One step of `QueryBuilder.from`: values that are undefined or null are
skipped; booleans go through `appendBoolean`, numbers through `appendNumber`,
anything else through `appendIfDefined`. -/
def qbFromStep (ps : List (String × String)) (kv : String × QVal) :
    List (String × String) :=
  match kv.2 with
  | .undef => ps
  | .null => ps
  | .bool b => qbAppendBoolean ps kv.1 (.bool b)
  | .num n => qbAppendNumber ps kv.1 (.num n)
  | v => qbAppendIfDefined ps kv.1 v

/-- `QueryBuilder.from(params)`: fold the entries of the record in order. -/
def qbFrom (entries : List (String × QVal)) : List (String × String) :=
  entries.foldl qbFromStep []

/-- `QueryBuilder.build()`: the urlencoded serialization of the accumulated
parameters. -/
def qbBuild (ps : List (String × String)) : String :=
  searchParamsToString ps

/-- The `buildQueryString` local to src/src/api/client.ts: appends
`String(value)` for every entry whose value is neither undefined nor null
(the empty string is NOT filtered there), then serializes. -/
def clientBuildQueryString (entries : List (String × QVal)) : String :=
  searchParamsToString
    (entries.foldl
      (fun ps kv =>
        if kv.2 ≠ .undef ∧ kv.2 ≠ .null then ps ++ [(kv.1, kv.2.jsToString)] else ps)
      [])

/-- Error codes from src/errors/base.ts (the `ErrorCode` const object). -/
inductive ErrorCode where
  | VALIDATION_ERROR | INVALID_ARGUMENT | MISSING_REQUIRED_FIELD
  | AUTHENTICATION_ERROR | INVALID_API_KEY | MISSING_API_KEY
  | AUTHORIZATION_ERROR | PERMISSION_DENIED | INSUFFICIENT_ROLE
  | NOT_FOUND | FILE_NOT_FOUND | FOLDER_NOT_FOUND | WORKSPACE_NOT_FOUND
  | CONFLICT | ALREADY_EXISTS
  | RATE_LIMIT_EXCEEDED
  | INTERNAL_ERROR | API_ERROR | NETWORK_ERROR
  | CONFIGURATION_ERROR
  | FILE_TOO_LARGE | INVALID_FILE_TYPE | UPLOAD_FAILED
  deriving DecidableEq, Repr

/-- The dynamic class of an error object: which of the error classes of
src/errors/base.ts it was constructed with. `base` is a plain
`new ZeroDriveError(...)` (produced only by `wrapError`). -/
inductive ErrorKind where
  | base
  | validation
  | missingRequiredField
  | authentication
  | authorization
  | notFound
  | conflict
  | rateLimit
  | api
  | network
  | configuration
  | fileOperation
  deriving DecidableEq, Repr

/-- The `ErrorContext` map: every key the embedded code ever writes is a
field; `none` models an absent key. -/
structure ErrorContext where
  endpoint : Option String := none
  statusCode : Option Nat := none
  errors : Option (List (String × List String)) := none
  field : Option String := none
  resourceType : Option String := none
  resourceId : Option String := none
  originalError : Option String := none
  filePath : Option String := none
  deriving DecidableEq, Repr

/-- A constructed error object: class (`kind`), `code`, `message`,
`statusCode`, `context`, `retryable`, and the `RateLimitError`-only
`retryAfter` field. -/
structure ZeroDriveError where
  kind : ErrorKind
  code : ErrorCode
  message : String
  statusCode : Nat
  context : ErrorContext
  retryable : Bool
  retryAfter : Option Int := none
  deriving DecidableEq, Repr

/-- `new ZeroDriveError(message, code, statusCode, context, retryable)`. -/
def mkZeroDriveBase (message : String) (code : ErrorCode) (statusCode : Nat)
    (context : ErrorContext) (retryable : Bool) : ZeroDriveError :=
  { kind := .base, code, message, statusCode, context, retryable }

/-- `new ValidationError(message, context)`: code VALIDATION_ERROR, 400, not
retryable. -/
def mkValidationError (message : String) (context : ErrorContext) : ZeroDriveError :=
  { kind := .validation, code := .VALIDATION_ERROR, message, statusCode := 400,
    context, retryable := false }

/-- `new MissingRequiredFieldError(fieldName, context)`: message
`Missing required field: name`, code MISSING_REQUIRED_FIELD, 400, context
`\x7b field: fieldName, ...context \x7d`, not retryable. -/
def mkMissingRequiredFieldError (fieldName : String) (context : ErrorContext) :
    ZeroDriveError :=
  { kind := .missingRequiredField, code := .MISSING_REQUIRED_FIELD,
    message := "Missing required field: " ++ fieldName, statusCode := 400,
    context := { context with field := context.field <|> some fieldName },
    retryable := false }

/-- `new AuthenticationError(message, context)`: 401, not retryable. -/
def mkAuthenticationError (message : String) (context : ErrorContext) : ZeroDriveError :=
  { kind := .authentication, code := .AUTHENTICATION_ERROR, message,
    statusCode := 401, context, retryable := false }

/-- `new AuthorizationError(message, context)`: 403, not retryable. -/
def mkAuthorizationError (message : String) (context : ErrorContext) : ZeroDriveError :=
  { kind := .authorization, code := .AUTHORIZATION_ERROR, message,
    statusCode := 403, context, retryable := false }

/-- `new NotFoundError(resourceType, resourceId, context)`: 404, not
retryable; the message appends the id only when it is truthy. -/
def mkNotFoundError (resourceType : String) (resourceId : Option String)
    (context : ErrorContext) : ZeroDriveError :=
  let message := match resourceId with
    | some rid => if rid = "" then resourceType ++ " not found"
        else resourceType ++ " not found: " ++ rid
    | none => resourceType ++ " not found"
  { kind := .notFound, code := .NOT_FOUND, message, statusCode := 404,
    context := { context with
      resourceType := context.resourceType <|> some resourceType,
      resourceId := context.resourceId <|> resourceId },
    retryable := false }

/-- `new ConflictError(message, context)`: 409, not retryable. -/
def mkConflictError (message : String) (context : ErrorContext) : ZeroDriveError :=
  { kind := .conflict, code := .CONFLICT, message, statusCode := 409,
    context, retryable := false }

/-- `new RateLimitError(retryAfter, context)`: 429, RETRYABLE; the message
mentions the wait only when `retryAfter` is truthy (present and nonzero). -/
def mkRateLimitError (retryAfter : Option Int) (context : ErrorContext) : ZeroDriveError :=
  let message := match retryAfter with
    | some n => if n = 0 then "Rate limit exceeded"
        else "Rate limit exceeded. Retry after " ++ toString n ++ " seconds"
    | none => "Rate limit exceeded"
  { kind := .rateLimit, code := .RATE_LIMIT_EXCEEDED, message, statusCode := 429,
    context, retryable := true, retryAfter }

/-- `new ApiError(message, statusCode, context)`: retryable exactly when
the status is at least 500 or equals 429. -/
def mkApiError (message : String) (statusCode : Nat) (context : ErrorContext) :
    ZeroDriveError :=
  { kind := .api, code := .API_ERROR, message, statusCode, context,
    retryable := decide (500 ≤ statusCode) || decide (statusCode = 429) }

/-- `new NetworkError(message, context)`: 503, RETRYABLE. -/
def mkNetworkError (message : String) (context : ErrorContext) : ZeroDriveError :=
  { kind := .network, code := .NETWORK_ERROR, message, statusCode := 503,
    context, retryable := true }

/-- `new ConfigurationError(message, context)`: 500, not retryable. -/
def mkConfigurationError (message : String) (context : ErrorContext) : ZeroDriveError :=
  { kind := .configuration, code := .CONFIGURATION_ERROR, message,
    statusCode := 500, context, retryable := false }

/-- `new FileOperationError(message, code, context)`: 400, not retryable. -/
def mkFileOperationError (message : String) (code : ErrorCode)
    (context : ErrorContext) : ZeroDriveError :=
  { kind := .fileOperation, code, message, statusCode := 400, context,
    retryable := false }

/-- A JavaScript value as it can arrive in a `catch` block. `zde` carries one
of our own errors; `typeError` is a built-in `TypeError`; `otherError` any
other `Error` subclass (with its `name`); `strVal` a thrown string;
`otherVal` any other thrown value. -/
inductive ThrownValue where
  | zde (e : ZeroDriveError)
  | typeError (message : String)
  | otherError (name message : String)
  | strVal (s : String)
  | otherVal
  deriving DecidableEq, Repr

/-- `isRetryableError(error)`: the stored flag for a ZeroDriveError, false
for anything else. -/
def isRetryableError : ThrownValue → Bool
  | .zde e => e.retryable
  | _ => false

/-- `wrapError(error, defaultMessage)`: ZeroDriveErrors pass through
unchanged; an `Error` is wrapped into a base ZeroDriveError with code
INTERNAL_ERROR, status 500 and the original class name in context (its own
message when non-empty, else the default); a thrown string becomes the
message as-is; anything else gets the default message. -/
def wrapError (error : ThrownValue) (defaultMessage : String) : ZeroDriveError :=
  match error with
  | .zde e => e
  | .typeError m =>
      mkZeroDriveBase (if m = "" then defaultMessage else m) .INTERNAL_ERROR 500
        { originalError := some "TypeError" } false
  | .otherError n m =>
      mkZeroDriveBase (if m = "" then defaultMessage else m) .INTERNAL_ERROR 500
        { originalError := some n } false
  | .strVal s => mkZeroDriveBase s .INTERNAL_ERROR 500 {} false
  | .otherVal => mkZeroDriveBase defaultMessage .INTERNAL_ERROR 500 {} false

/-- JavaScript `parseInt(s, 10)`: skip leading whitespace, optional sign,
then the maximal run of digits; `none` models NaN (no digits). -/
def js_parseInt (s : String) : Option Int :=
  let cs := s.data.dropWhile (fun c => c = ' ' ∨ c = '\t' ∨ c = '\n' ∨ c = '\r')
  let signAndRest : Bool × List Char :=
    match cs with
    | '-' :: rest => (true, rest)
    | '+' :: rest => (false, rest)
    | _ => (false, cs)
  let ds := signAndRest.2.takeWhile Char.isDigit
  if ds.isEmpty then none
  else
    let n : Nat := ds.foldl (fun acc c => acc * 10 + (c.toNat - 48)) 0
    some (if signAndRest.1 then -(n : Int) else (n : Int))

/-- The decoded body of a non-success response as `handleErrorResponse` sees
it: a parsed JSON object (with its `message` and optional `errors` fields)
or raw text. A body that failed to decode is the text `HTTP status`. -/
inductive ErrorBody where
  | json (message : String) (errors : Option (List (String × List String)))
  | text (s : String)
  deriving DecidableEq, Repr

/-- `handleErrorResponse(response, endpoint)` from src/src/api/client.ts: the
message comes from the JSON body's `message` field, else the raw text, else
`HTTP status`; the context records endpoint, status and any `errors` map;
the switch maps 400/401/403/404/429 to dedicated classes and EVERYTHING
ELSE (including 409) to ApiError. -/
def handleErrorResponse (status : Nat) (errorBody : ErrorBody)
    (retryAfterHeader : Option String) (endpoint : String) : ZeroDriveError :=
  let message := match errorBody with
    | .json m _ => m
    | .text s => if s = "" then "HTTP " ++ toString status else s
  let ctx : ErrorContext :=
    { endpoint := some endpoint, statusCode := some status,
      errors := match errorBody with | .json _ es => es | .text _ => none }
  if status = 400 then mkValidationError message ctx
  else if status = 401 then mkAuthenticationError message ctx
  else if status = 403 then mkAuthorizationError message ctx
  else if status = 404 then mkNotFoundError "Resource" none ctx
  else if status = 429 then mkRateLimitError (retryAfterHeader.bind js_parseInt) ctx
  else mkApiError message status ctx

/-- The status to (kind, retryable) table actually implemented by
`handleErrorResponse` (the spec table amended at 409). -/
def classifierTable (status : Nat) : ErrorKind × Bool :=
  if status = 400 then (.validation, false)
  else if status = 401 then (.authentication, false)
  else if status = 403 then (.authorization, false)
  else if status = 404 then (.notFound, false)
  else if status = 429 then (.rateLimit, true)
  else (.api, decide (500 ≤ status) || decide (status = 429))

/-- A JSON-compatible JavaScript value (the `unknown` of the body-building
code paths). -/
inductive JsValue where
  | undef
  | null
  | bool (b : Bool)
  | num (n : Int)
  | str (s : String)
  | arr (xs : List JsValue)
  | obj (fields : List (String × JsValue))

/-- Whether a value is `undefined` or `null` (the check of `setRequired`). -/
def JsValue.isNil : JsValue → Bool
  | .undef => true
  | .null => true
  | _ => false

/-- Whether a value is exactly `undefined` (the check of `setOptional`). -/
def JsValue.isUndef : JsValue → Bool
  | .undef => true
  | _ => false

/-- JavaScript truthiness of a value. -/
def jsTruthy : JsValue → Bool
  | .undef => false
  | .null => false
  | .bool b => b
  | .num n => n != 0
  | .str s => s ≠ ""
  | .arr _ => true
  | .obj _ => true

/-- JSON string escaping as performed by `JSON.stringify` on the characters
that matter here: backslash, double quote, and control characters. -/
def jsonEscapeChar (c : Char) : String :=
  if c = '"' then "\\\""
  else if c = '\\' then "\\\\"
  else if c = '\n' then "\\n"
  else if c = '\r' then "\\r"
  else if c = '\t' then "\\t"
  else if c.toNat < 0x20 then
    "\\u00" ++ String.mk [hexDigit (c.toNat / 16), hexDigit (c.toNat % 16)]
  else String.singleton c

/-- Escape a whole string for JSON output. -/
def jsonEscape (s : String) : String :=
  String.join (s.data.map jsonEscapeChar)

mutual

/-- `JSON.stringify(value)`. `none` models the undefined result (stringifying
`undefined`). Undefined-valued object fields are dropped; undefined array
elements serialize as `null`. -/
def jsonStringify : JsValue → Option String
  | .undef => none
  | .null => some "null"
  | .bool b => some (cond b "true" "false")
  | .num n => some (toString n)
  | .str s => some ("\"" ++ jsonEscape s ++ "\"")
  | .arr xs => some ("[" ++ String.intercalate "," (jsonStringifyArr xs) ++ "]")
  | .obj fs => some ("\x7b" ++ String.intercalate "," (jsonStringifyObj fs) ++ "\x7d")

/-- Serialize array elements (undefined becomes `null`). -/
def jsonStringifyArr : List JsValue → List String
  | [] => []
  | v :: vs => (jsonStringify v).getD "null" :: jsonStringifyArr vs

/-- Serialize object fields, dropping those whose value stringifies to
undefined. -/
def jsonStringifyObj : List (String × JsValue) → List String
  | [] => []
  | (k, v) :: fs =>
      match jsonStringify v with
      | some s => ("\"" ++ jsonEscape k ++ "\":" ++ s) :: jsonStringifyObj fs
      | none => jsonStringifyObj fs

end

/-- Assignment `o[key] = value` on a plain JS object modelled as an ordered
association list: an existing key is overwritten in place, a new key is
appended. -/
def jsObjSet {α : Type} (o : List (String × α)) (key : String) (value : α) :
    List (String × α) :=
  if o.any (fun kv => kv.1 = key) then
    o.map (fun kv => if kv.1 = key then (key, value) else kv)
  else o ++ [(key, value)]

/-- Property read `o[key]` on a plain JS object: the value of the key, or
undefined (`none`). -/
def jsObjGet {α : Type} : List (String × α) → String → Option α
  | [], _ => none
  | kv :: tl, key => if kv.1 = key then some kv.2 else jsObjGet tl key

/-- Truthiness of a property read: undefined and the empty string are falsy. -/
def jsTruthyProp : Option String → Bool
  | none => false
  | some s => s ≠ ""

/-- The outgoing request of one `apiRequest` attempt: method, final header
object and the raw body actually attached. -/
structure RequestInit where
  method : String
  headers : List (String × String)
  body : Option String
  deriving DecidableEq, Repr

/-- The header object of `apiRequest` before the Content-Type step: the
literal `\x7b Authorization: Bearer key \x7d` with the caller's headers
spread over it. -/
def mergedHeaders (apiKey : String) (headers : List (String × String)) :
    List (String × String) :=
  headers.foldl (fun acc kv => jsObjSet acc kv.1 kv.2)
    [("Authorization", "Bearer " ++ apiKey)]

/-- The header object after the Content-Type step: `Content-Type:
application/json` is assigned when the body is truthy and the merged
headers hold no truthy Content-Type entry. -/
def finalHeaders (apiKey : String) (body : JsValue)
    (headers : List (String × String)) : List (String × String) :=
  if jsTruthy body && !(jsTruthyProp (jsObjGet (mergedHeaders apiKey headers) "Content-Type")) then
    jsObjSet (mergedHeaders apiKey headers) "Content-Type" "application/json"
  else mergedHeaders apiKey headers

/-- The raw wire body for a value: a string passes through unchanged,
anything else goes through `JSON.stringify`. -/
def rawBodyOf : JsValue → String
  | .str s => s
  | v => (jsonStringify v).getD "undefined"

/-- The body attachment of `apiRequest`: only a truthy body is attached. -/
def serializeBody (body : JsValue) : Option String :=
  if jsTruthy body then some (rawBodyOf body) else none

/-- The header/body assembly of `apiRequest` (src/src/api/client.ts lines
60-79): headers as above; the body is attached only when truthy. -/
def buildRequestInit (apiKey : String) (method : String) (body : JsValue)
    (headers : List (String × String)) : RequestInit :=
  { method, headers := finalHeaders apiKey body headers,
    body := serializeBody body }

/-- Whether `pat` is a prefix of `s` (over character lists). -/
def listStartsWith : List Char → List Char → Bool
  | _, [] => true
  | [], _ :: _ => false
  | c :: cs, p :: ps => c = p && listStartsWith cs ps

/-- Whether `pat` occurs in `s` (over character lists). -/
def listIncludes (s pat : List Char) : Bool :=
  listStartsWith s pat ||
    (match s with
     | [] => false
     | _ :: rest => listIncludes rest pat)

/-- Substring test: JavaScript `s.includes(pat)`. -/
def strIncludes (s pat : String) : Bool :=
  listIncludes s.data pat.data

/-- The catch block of `apiRequest` (src/src/api/client.ts lines 117-141):
ApiError and NetworkError instances are re-raised unchanged; a TypeError
whose message contains "fetch" becomes `NetworkError("Network request
failed")`; everything else goes through `wrapError` (which passes any
ZeroDriveError through unchanged and wraps the rest). -/
def apiRequestCatch (endpoint : String) (error : ThrownValue) : ZeroDriveError :=
  match error with
  | .zde e =>
      if e.kind == .api || e.kind == .network then e
      else wrapError (.zde e) ("API request to " ++ endpoint ++ " failed")
  | .typeError m =>
      if strIncludes m "fetch" then mkNetworkError "Network request failed" {}
      else wrapError (.typeError m) ("API request to " ++ endpoint ++ " failed")
  | e => wrapError e ("API request to " ++ endpoint ++ " failed")

/-- Whitespace skipping for the JSON parser. -/
def jsonSkipWs (cs : List Char) : List Char :=
  cs.dropWhile (fun c => c = ' ' ∨ c = '\t' ∨ c = '\n' ∨ c = '\r')

/-- Parse the body of a JSON string literal (after the opening quote),
returning the decoded characters and the rest after the closing quote. -/
def jsonParseStr (fuel : Nat) (cs : List Char) : Option (List Char × List Char) :=
  match fuel, cs with
  | 0, _ => none
  | _, [] => none
  | fuel + 1, c :: rest =>
    if c = '"' then some ([], rest)
    else if c = '\\' then
      match rest with
      | [] => none
      | e :: rest2 =>
        let dec : Option Char :=
          if e = '"' then some '"'
          else if e = '\\' then some '\\'
          else if e = '/' then some '/'
          else if e = 'n' then some '\n'
          else if e = 't' then some '\t'
          else if e = 'r' then some '\r'
          else if e = 'b' then some (Char.ofNat 8)
          else if e = 'f' then some (Char.ofNat 12)
          else none
        match dec with
        | some d =>
            (jsonParseStr fuel rest2).map (fun p => (d :: p.1, p.2))
        | none =>
          if e = 'u' then
            match rest2 with
            | h1 :: h2 :: h3 :: h4 :: rest3 =>
                let hv : Char → Option Nat := fun h =>
                  if h.isDigit then some (h.toNat - 48)
                  else if 'a' ≤ h ∧ h ≤ 'f' then some (h.toNat - 87)
                  else if 'A' ≤ h ∧ h ≤ 'F' then some (h.toNat - 55)
                  else none
                match hv h1, hv h2, hv h3, hv h4 with
                | some a, some b, some c', some d =>
                    (jsonParseStr fuel rest3).map
                      (fun p => (Char.ofNat (a * 4096 + b * 256 + c' * 16 + d) :: p.1, p.2))
                | _, _, _, _ => none
            | _ => none
          else none
    else (jsonParseStr fuel rest).map (fun p => (c :: p.1, p.2))

/-- Parse a JSON number; the numeric value is modelled to integer precision
(no claim inspects parsed numbers). -/
def jsonParseNum (cs : List Char) : Option (Int × List Char) :=
  let p : Bool × List Char := match cs with
    | '-' :: rest => (true, rest)
    | _ => (false, cs)
  let ds := p.2.takeWhile Char.isDigit
  if ds.isEmpty then none
  else
    let afterInt := p.2.drop ds.length
    let afterFrac := match afterInt with
      | '.' :: rest =>
          let fs := rest.takeWhile Char.isDigit
          if fs.isEmpty then afterInt else rest.drop fs.length
      | _ => afterInt
    let afterExp := match afterFrac with
      | e :: rest =>
          if e = 'e' ∨ e = 'E' then
            let rest2 := match rest with
              | s :: r2 => if s = '+' ∨ s = '-' then r2 else rest
              | [] => rest
            let es := rest2.takeWhile Char.isDigit
            if es.isEmpty then afterFrac else rest2.drop es.length
          else afterFrac
      | [] => afterFrac
    let n : Nat := ds.foldl (fun acc c => acc * 10 + (c.toNat - 48)) 0
    some (if p.1 then -(n : Int) else (n : Int), afterExp)

mutual

/-- Parse one JSON value from the character stream. -/
def jsonParseVal (fuel : Nat) (cs : List Char) : Option (JsValue × List Char) :=
  match fuel with
  | 0 => none
  | fuel + 1 =>
    match jsonSkipWs cs with
    | [] => none
    | c :: rest =>
      if c = 'n' then
        match rest with
        | 'u' :: 'l' :: 'l' :: r => some (.null, r)
        | _ => none
      else if c = 't' then
        match rest with
        | 'r' :: 'u' :: 'e' :: r => some (.bool true, r)
        | _ => none
      else if c = 'f' then
        match rest with
        | 'a' :: 'l' :: 's' :: 'e' :: r => some (.bool false, r)
        | _ => none
      else if c = '"' then
        (jsonParseStr fuel rest).map (fun p => (.str (String.mk p.1), p.2))
      else if c = '[' then
        match jsonSkipWs rest with
        | ']' :: r => some (.arr [], r)
        | _ => (jsonParseElems fuel rest).map (fun p => (.arr p.1, p.2))
      else if c = '\x7b' then
        match jsonSkipWs rest with
        | '\x7d' :: r => some (.obj [], r)
        | _ => (jsonParseFields fuel rest).map (fun p => (.obj p.1, p.2))
      else (jsonParseNum (c :: rest)).map (fun p => (.num p.1, p.2))

/-- Parse comma-separated array elements up to the closing bracket. -/
def jsonParseElems (fuel : Nat) (cs : List Char) : Option (List JsValue × List Char) :=
  match fuel with
  | 0 => none
  | fuel + 1 =>
    match jsonParseVal fuel cs with
    | none => none
    | some (v, rest) =>
      match jsonSkipWs rest with
      | ',' :: r => (jsonParseElems fuel r).map (fun p => (v :: p.1, p.2))
      | ']' :: r => some ([v], r)
      | _ => none

/-- Parse comma-separated object members up to the closing brace. -/
def jsonParseFields (fuel : Nat) (cs : List Char) :
    Option (List (String × JsValue) × List Char) :=
  match fuel with
  | 0 => none
  | fuel + 1 =>
    match jsonSkipWs cs with
    | '"' :: rest =>
      match jsonParseStr fuel rest with
      | none => none
      | some (key, rest2) =>
        match jsonSkipWs rest2 with
        | ':' :: rest3 =>
          match jsonParseVal fuel rest3 with
          | none => none
          | some (v, rest4) =>
            match jsonSkipWs rest4 with
            | ',' :: r =>
                (jsonParseFields fuel r).map
                  (fun p => ((String.mk key, v) :: p.1, p.2))
            | '\x7d' :: r => some ([(String.mk key, v)], r)
            | _ => none
        | _ => none
    | _ => none

end

/-- `JSON.parse(s)`: `none` models a thrown SyntaxError (including trailing
garbage after the value). -/
def js_JSON_parse (s : String) : Option JsValue :=
  match jsonParseVal (s.length + 1) s.data with
  | none => none
  | some (v, rest) => if (jsonSkipWs rest).isEmpty then some v else none

/-- The value resolved by `uploadFile` when a response completes. -/
structure UploadResponse where
  success : Bool
  data : Option JsValue := none
  error : Option String := none

/-- The response `end` handler of `uploadFile`
(src/src/utils/upload-handler.ts lines 141-172): the status defaults to 500
when absent; a status of 400 OR MORE resolves `success:false` with an error
text naming the status and the raw body; any smaller status (including 3xx)
resolves `success:true` with the JSON-parsed body, or the raw text when it
is not JSON. -/
def uploadOnEnd (statusCode : Option Nat) (responseData : String) : UploadResponse :=
  let status := statusCode.getD 500
  if 400 ≤ status then
    { success := false,
      error := some ("Upload failed with status " ++ toString status ++ ": "
        ++ responseData) }
  else
    match js_JSON_parse responseData with
    | some v => { success := true, data := some v }
    | none => { success := true, data := some (.str responseData) }

/-- The backoff delay computed inside `apiRequestWithRetry`
(src/src/api/client.ts line 290): `retryDelay * Math.pow(2, attempt)` —
no jitter and no cap. -/
def retryBackoffDelay (retryDelay attempt : Nat) : Nat :=
  retryDelay * 2 ^ attempt

/-- `calculateRetryDelay(attempt, baseDelay, maxDelay)` from the error
utilities: exponential delay plus a jitter of `rand * 0.3 * exponential`
(with `rand` the `Math.random()` draw in [0, 1)), capped at `maxDelay`,
floored. Defaults: baseDelay 1000, maxDelay 30000. -/
def calculateRetryDelay (attempt : Nat) (baseDelay maxDelay rand : ℚ) : ℤ :=
  let exponentialDelay := baseDelay * 2 ^ attempt
  let jitter := rand * (3 / 10) * exponentialDelay
  ⌊min (exponentialDelay + jitter) maxDelay⌋

/-- What one `apiRequest` attempt does: return a value or throw. -/
inductive AttemptOutcome (α : Type) where
  | success (v : α)
  | failure (e : ThrownValue)

/-- Observable outcome of `apiRequestWithRetry`: the resolved value or the
re-raised error, together with how many attempts were made. -/
inductive RetryResult (α : Type) where
  | ok (v : α) (attemptsMade : Nat)
  | err (e : ThrownValue) (attemptsMade : Nat)

/-- The loop body of `apiRequestWithRetry` from iteration `attempt` on, with
`remaining = maxRetries - attempt` iterations left after this one: a
success returns immediately; a non-retryable failure is re-thrown at once;
a retryable failure on the last allowed attempt breaks and the saved error
is re-thrown; otherwise the loop sleeps and retries. `f n` is the outcome
of the (0-indexed) n-th call to `apiRequest`. -/
def retryGo {α : Type} (f : Nat → AttemptOutcome α) (attempt remaining : Nat) :
    RetryResult α :=
  match f attempt with
  | .success v => .ok v (attempt + 1)
  | .failure e =>
    if isRetryableError e = false then .err e (attempt + 1)
    else match remaining with
      | 0 => .err e (attempt + 1)
      | r + 1 => retryGo f (attempt + 1) r

/-- `apiRequestWithRetry` as a function of the per-attempt outcomes:
attempts run from index 0 with `maxRetries` retries in budget. -/
def apiRequestWithRetryModel {α : Type} (f : Nat → AttemptOutcome α)
    (maxRetries : Nat) : RetryResult α :=
  retryGo f 0 maxRetries

/-- `RequestBodyBuilder.setRequired(key, value)`: a value of undefined or
null throws `MissingRequiredFieldError(key)` BEFORE mutating the body;
otherwise the field is assigned. Returns the body after the call and the
thrown error, if any. -/
def rbSetRequired (body : List (String × JsValue)) (key : String) (value : JsValue) :
    List (String × JsValue) × Option ZeroDriveError :=
  if value.isNil then (body, some (mkMissingRequiredFieldError key {}))
  else (jsObjSet body key value, none)

/-- `RequestBodyBuilder.setOptional(key, value)`: assigned unless the value
is undefined (null, false, 0 and "" ARE assigned). -/
def rbSetOptional (body : List (String × JsValue)) (key : String) (value : JsValue) :
    List (String × JsValue) :=
  if value.isUndef then body else jsObjSet body key value

/-- `RequestBodyBuilder.setRequiredMany(fields)`: `setRequired` on every
entry in order; the first undefined/null value throws, leaving the
assignments already made in place. -/
def rbSetRequiredMany (body : List (String × JsValue))
    (fields : List (String × JsValue)) :
    List (String × JsValue) × Option ZeroDriveError :=
  match fields with
  | [] => (body, none)
  | (k, v) :: rest =>
    match rbSetRequired body k v with
    | (b, none) => rbSetRequiredMany b rest
    | (b, some e) => (b, some e)

/-- `RequestBodyBuilder.build()`: a fresh shallow copy of the accumulated
map — with value semantics, the map itself. -/
def rbBuild (body : List (String × JsValue)) : List (String × JsValue) :=
  body

/-- Attempts made, read off a retry outcome. -/
def RetryResult.attempts {α : Type} : RetryResult α → Nat
  | .ok _ n => n
  | .err _ n => n

/-- Every list starts with itself. -/
theorem listStartsWith_self (l : List Char) : listStartsWith l l = true := by
  induction l with
  | nil => rfl
  | cons c cs ih => simp [listStartsWith, ih]

/-- A list occurs as a substring after any prefix. -/
theorem listIncludes_append_self (p k : List Char) :
    listIncludes (p ++ k) k = true := by
  induction p with
  | nil =>
    rw [List.nil_append, listIncludes.eq_def, listStartsWith_self, Bool.true_or]
  | cons c cs ih =>
    rw [List.cons_append]
    show (listStartsWith (c :: (cs ++ k)) k || listIncludes (cs ++ k) k) = true
    rw [ih, Bool.or_true]

/-- `s.includes(k)` holds when `k` is appended after any prefix. -/
theorem strIncludes_append_self (p k : String) :
    strIncludes (p ++ k) k = true := by
  have : (p ++ k).data = p.data ++ k.data := String.data_append p k
  rw [strIncludes, this]
  exact listIncludes_append_self p.data k.data

/-- The classifier realizes the implemented table (shared helper). -/
theorem classify_pair_eq (status : Nat) (body : ErrorBody)
    (hdr : Option String) (endpoint : String) :
    ((handleErrorResponse status body hdr endpoint).kind,
        (handleErrorResponse status body hdr endpoint).retryable)
      = classifierTable status := by
  unfold handleErrorResponse classifierTable
  split_ifs <;>
    simp [mkValidationError, mkAuthenticationError, mkAuthorizationError,
      mkNotFoundError, mkRateLimitError, mkApiError]

/-- C1 counterexample: the claim's 409 row fails on the code. A 409
response is classified by `handleErrorResponse` through the default branch
as an ApiError, not as a Conflict-kind error (the ConflictError class is
never produced by the classifier). -/
theorem C1_counterexample :
    (handleErrorResponse 409 (ErrorBody.text "duplicate name") none
        "/api/v1/folders").kind = ErrorKind.api ∧
    (handleErrorResponse 409 (ErrorBody.text "duplicate name") none
        "/api/v1/folders").kind ≠ ErrorKind.conflict ∧
    (handleErrorResponse 409 (ErrorBody.text "duplicate name") none
        "/api/v1/folders").retryable = false := by
  decide

/-- C1 (amended): for every status, `handleErrorResponse` returns the
kind/retryable pair of the implemented table — 400 Validation (not
retryable), 401 Authentication (not retryable), 403 Authorization (not
retryable), 404 NotFound (not retryable), 429 RateLimit (retryable), and
every other status (409 included) ApiError with retryable iff the status
is at least 500 or equals 429; in particular every 5xx is ApiError and
retryable. -/
theorem C1_classifier_table (status : Nat) (body : ErrorBody)
    (hdr : Option String) (endpoint : String) :
    ((handleErrorResponse status body hdr endpoint).kind,
        (handleErrorResponse status body hdr endpoint).retryable)
      = classifierTable status ∧
    (500 ≤ status → classifierTable status = (ErrorKind.api, true)) := by
  constructor
  · exact classify_pair_eq status body hdr endpoint
  · intro h
    unfold classifierTable
    split_ifs <;> first
      | omega
      | (simp only [Prod.mk.injEq, true_and]
         simp [decide_eq_true_eq, h])

/-- C1 witness: the amended table applied at a concrete 503 response. -/
theorem C1_classifier_table_witness :
    ((handleErrorResponse 503 (ErrorBody.text "oops") none "/api/v1/files").kind,
        (handleErrorResponse 503 (ErrorBody.text "oops") none
          "/api/v1/files").retryable)
      = classifierTable 503 ∧
    classifierTable 503 = (ErrorKind.api, true) :=
  ⟨(C1_classifier_table 503 (ErrorBody.text "oops") none "/api/v1/files").1,
   (C1_classifier_table 503 (ErrorBody.text "oops") none "/api/v1/files").2
     (by omega)⟩

/-- C2 counterexample: a 301 completion is non-2xx but the upload handler
resolves it as a success (`success:true`, no error), because the soft
failure branch only triggers at status 400 and above. -/
theorem C2_counterexample :
    (uploadOnEnd (some 301) "Moved Permanently").success = true ∧
    (uploadOnEnd (some 301) "Moved Permanently").error = none := by
  constructor <;> rfl

/-- C2 (amended): a completion whose status (defaulted to 500 when absent)
is at least 400 never raises — it resolves `success:false` with an error
text naming the status and the raw response body; any completion below 400
(including 3xx) resolves `success:true` with no error. -/
theorem C2_upload_soft_failure (statusCode : Option Nat) (responseData : String) :
    (400 ≤ statusCode.getD 500 →
      uploadOnEnd statusCode responseData =
        { success := false,
          error := some ("Upload failed with status "
            ++ toString (statusCode.getD 500) ++ ": " ++ responseData) }) ∧
    (statusCode.getD 500 < 400 →
      (uploadOnEnd statusCode responseData).success = true ∧
      (uploadOnEnd statusCode responseData).error = none) := by
  constructor
  · intro h
    simp only [uploadOnEnd]
    rw [if_pos h]
  · intro h
    simp only [uploadOnEnd]
    rw [if_neg (by omega)]
    cases js_JSON_parse responseData <;> simp

/-- C2 witness: the amended statement applied at a concrete 500 and a
concrete 301 completion. -/
theorem C2_upload_soft_failure_witness :
    uploadOnEnd (some 500) "boom" =
      { success := false, error := some "Upload failed with status 500: boom" } ∧
    (uploadOnEnd (some 301) "redirected").success = true :=
  ⟨(C2_upload_soft_failure (some 500) "boom").1 (by decide),
   ((C2_upload_soft_failure (some 301) "redirected").2 (by decide)).1⟩

/-- C5 counterexample: the `buildQueryString` local to client.ts does emit
a key whose supplied value was the empty string — the pair comes out as an
empty `k=`. -/
theorem C5_counterexample :
    clientBuildQueryString [("k", QVal.str "")] = "k=" ∧ ("k=" : String) ≠ "" := by
  decide

/-- C5 (amended): the QueryBuilder appends never emit a key for the omitted
sentinels — `appendIfDefined` drops undefined, null and the empty string,
`appendNumber` drops undefined and null, `appendBoolean` drops undefined —
while explicit booleans and numbers are stringified: `appendBoolean(k,false)`
builds exactly `k=false`, `appendNumber(k,0)` builds exactly `k=0`, and
`build()` of an empty builder is the empty string. The client.ts-local
`buildQueryString` omits only undefined and null: it emits an
empty-string value as an empty `k=` pair. -/
theorem C5_query_builder_omission :
    (∀ (ps : List (String × String)) (k : String) (v : QVal),
      v = .undef ∨ v = .null ∨ v = .str "" → qbAppendIfDefined ps k v = ps) ∧
    (∀ (ps : List (String × String)) (k : String) (v : QVal),
      v = .undef ∨ v = .null → qbAppendNumber ps k v = ps) ∧
    (∀ (ps : List (String × String)) (k : String),
      qbAppendBoolean ps k .undef = ps) ∧
    qbBuild (qbAppendBoolean [] "k" (.bool false)) = "k=false" ∧
    qbBuild (qbAppendNumber [] "k" (.num 0)) = "k=0" ∧
    qbBuild [] = "" ∧
    (∀ k : String, clientBuildQueryString [(k, .undef)] = ""
      ∧ clientBuildQueryString [(k, .null)] = "") ∧
    clientBuildQueryString [("q", QVal.str "")] = "q=" := by
  refine ⟨?_, ?_, ?_, by decide, by decide, rfl, ?_, by decide⟩
  · rintro ps k v (rfl | rfl | rfl) <;> rfl
  · rintro ps k v (rfl | rfl) <;> rfl
  · intro ps k; rfl
  · intro k; exact ⟨rfl, rfl⟩

/-- C5 witness: the omission clauses applied at concrete inputs. -/
theorem C5_query_builder_omission_witness :
    qbAppendIfDefined [] "k" (QVal.str "") = [] ∧
    qbAppendNumber [] "k" QVal.null = [] :=
  ⟨C5_query_builder_omission.1 [] "k" (QVal.str "") (Or.inr (Or.inr rfl)),
   C5_query_builder_omission.2.1 [] "k" QVal.null (Or.inr rfl)⟩

/-- C9: `setRequired(k, v)` with v undefined or null throws
`MissingRequiredFieldError` whose context carries `field = k` and whose
message names k — without touching the accumulated body (the builder is
pure; no network is involved) — and with any other v it assigns the field
and succeeds. -/
theorem C9_set_required (body : List (String × JsValue)) (key : String)
    (value : JsValue) :
    (value.isNil = true →
      rbSetRequired body key value
          = (body, some (mkMissingRequiredFieldError key {})) ∧
      (mkMissingRequiredFieldError key {}).kind = ErrorKind.missingRequiredField ∧
      (mkMissingRequiredFieldError key {}).context.field = some key ∧
      (mkMissingRequiredFieldError key {}).message
          = "Missing required field: " ++ key ∧
      strIncludes (mkMissingRequiredFieldError key {}).message key = true) ∧
    (value.isNil = false →
      rbSetRequired body key value = (jsObjSet body key value, none)) := by
  constructor
  · intro h
    refine ⟨?_, rfl, rfl, rfl, ?_⟩
    · rw [rbSetRequired, if_pos h]
    · exact strIncludes_append_self "Missing required field: " key
  · intro h
    rw [rbSetRequired, if_neg (by simp [h])]

/-- C9 witness: a null required field throws with the field name in
context, and a set value succeeds. -/
theorem C9_set_required_witness :
    rbSetRequired [] "folderId" JsValue.null
        = ([], some (mkMissingRequiredFieldError "folderId" {})) ∧
    rbSetRequired [] "name" (JsValue.str "X")
        = (jsObjSet [] "name" (JsValue.str "X"), none) :=
  ⟨((C9_set_required [] "folderId" JsValue.null).1 rfl).1,
   (C9_set_required [] "name" (JsValue.str "X")).2 rfl⟩

/-- C10: `setRequiredMany` is not atomic — on a field map whose first
undefined-or-null entry is `(k, v)`, it throws `MissingRequiredFieldError`
for k and every earlier entry stays assigned in the builder (and is what a
subsequent `build()` returns); a single failing `setRequired` leaves the
body unchanged. -/
theorem C10_set_required_many (body : List (String × JsValue))
    (good : List (String × JsValue)) (k : String) (v : JsValue)
    (rest : List (String × JsValue))
    (hgood : ∀ kv ∈ good, kv.2.isNil = false)
    (hbad : v.isNil = true) :
    rbSetRequiredMany body (good ++ (k, v) :: rest)
        = (good.foldl (fun b kv => jsObjSet b kv.1 kv.2) body,
           some (mkMissingRequiredFieldError k {})) ∧
    rbBuild (rbSetRequiredMany body (good ++ (k, v) :: rest)).1
        = good.foldl (fun b kv => jsObjSet b kv.1 kv.2) body ∧
    (rbSetRequired body k v).1 = body := by
  have main : ∀ (good : List (String × JsValue)) (body : List (String × JsValue)),
      (∀ kv ∈ good, kv.2.isNil = false) →
      rbSetRequiredMany body (good ++ (k, v) :: rest)
        = (good.foldl (fun b kv => jsObjSet b kv.1 kv.2) body,
           some (mkMissingRequiredFieldError k {})) := by
    intro good
    induction good with
    | nil =>
      intro body _
      simp only [List.nil_append, List.foldl_nil, rbSetRequiredMany]
      rw [rbSetRequired, if_pos hbad]
    | cons kv tl ih =>
      intro body hg
      have hkv : kv.2.isNil = false := hg kv (List.mem_cons_self kv tl)
      simp only [List.cons_append, List.foldl_cons, rbSetRequiredMany]
      rw [rbSetRequired, if_neg (by simp [hkv])]
      exact ih (jsObjSet body kv.1 kv.2) (fun x hx => hg x (List.mem_cons_of_mem kv hx))
  refine ⟨main good body hgood, ?_, ?_⟩
  · rw [rbBuild, main good body hgood]
  · rw [rbSetRequired, if_pos hbad]

/-- C10 witness: one good entry then a null entry — the good entry stays
set, the error names the failing key. -/
theorem C10_set_required_many_witness :
    rbSetRequiredMany [] [("name", JsValue.str "X"), ("storageAllocation", JsValue.null)]
        = ([("name", JsValue.str "X")],
           some (mkMissingRequiredFieldError "storageAllocation" {})) :=
  (C10_set_required_many [] [("name", JsValue.str "X")] "storageAllocation"
      JsValue.null []
      (fun kv hkv => by
        have h := List.mem_singleton.mp hkv
        subst h
        rfl)
      rfl).1

/-- Overwriting the entries holding `k` in place does not change the value
read at another key. -/
theorem jsObjGet_map_overwrite {α : Type} (o : List (String × α)) (k : String)
    (v : α) (key : String) (h : k ≠ key) :
    jsObjGet (o.map (fun kv => if kv.1 = k then (k, v) else kv)) key
      = jsObjGet o key := by
  induction o with
  | nil => rfl
  | cons kv tl ih =>
    by_cases hk : kv.1 = k
    · have hkey : ¬ kv.1 = key := by rw [hk]; exact h
      simp only [List.map_cons, if_pos hk, jsObjGet]
      rw [if_neg h, if_neg hkey]
      exact ih
    · simp only [List.map_cons, if_neg hk, jsObjGet]
      by_cases hkey : kv.1 = key
      · rw [if_pos hkey, if_pos hkey]
      · rw [if_neg hkey, if_neg hkey]
        exact ih

/-- Appending an entry for a different key does not change the value read. -/
theorem jsObjGet_append_single {α : Type} (o : List (String × α)) (k : String)
    (v : α) (key : String) (h : k ≠ key) :
    jsObjGet (o ++ [(k, v)]) key = jsObjGet o key := by
  induction o with
  | nil => simp [jsObjGet, h]
  | cons kv tl ih =>
    by_cases hkey : kv.1 = key
    · simp [jsObjGet, hkey]
    · simp [jsObjGet, hkey, ih]

/-- Reading back the key just assigned returns the assigned value. -/
theorem jsObjGet_set_self {α : Type} (o : List (String × α)) (k : String) (v : α) :
    jsObjGet (jsObjSet o k v) k = some v := by
  unfold jsObjSet
  split
  case isTrue h =>
    induction o with
    | nil => simp at h
    | cons kv tl ih =>
      by_cases hk : kv.1 = k
      · simp [jsObjGet, hk]
      · have htl : tl.any (fun kv => decide (kv.1 = k)) = true := by
          simpa [List.any_cons, hk] using h
        simp only [List.map_cons, if_neg hk, jsObjGet]
        exact ih htl
  case isFalse h =>
    induction o with
    | nil => simp [jsObjGet]
    | cons kv tl ih =>
      have hk : ¬ kv.1 = k := by
        intro hkk
        exact h (by simp [List.any_cons, hkk])
      have htl : ¬ tl.any (fun kv => decide (kv.1 = k)) = true := by
        intro hh
        exact h (by simp [List.any_cons, hh])
      rw [List.cons_append, jsObjGet]
      rw [if_neg hk]
      exact ih htl

/-- Assigning one key leaves reads of any other key unchanged. -/
theorem jsObjGet_set_ne {α : Type} (o : List (String × α)) (k : String) (v : α)
    (key : String) (h : k ≠ key) :
    jsObjGet (jsObjSet o k v) key = jsObjGet o key := by
  unfold jsObjSet
  split
  case isTrue _ => exact jsObjGet_map_overwrite o k v key h
  case isFalse _ => exact jsObjGet_append_single o k v key h

/-- Spreading headers that never use `key` leaves reads of `key` at the
initial object. -/
theorem jsObjGet_mergedFold {α : Type} (headers : List (String × α)) (key : String) :
    ∀ (init : List (String × α)),
      headers.all (fun kv => kv.1 != key) = true →
      jsObjGet (headers.foldl (fun acc kv => jsObjSet acc kv.1 kv.2) init) key
        = jsObjGet init key := by
  induction headers with
  | nil => intro init _; rfl
  | cons kv tl ih =>
    intro init hall
    simp only [List.all_cons, Bool.and_eq_true, bne_iff_ne] at hall
    rw [List.foldl_cons, ih (jsObjSet init kv.1 kv.2) (by simpa using hall.2),
      jsObjGet_set_ne init kv.1 kv.2 key hall.1]

/-- C3 counterexample: the controller's delay is not capped. With the
default base delay of 1000 ms and an allowed configuration maxRetries = 5,
the delay before the 6th attempt is 32000 ms, above the 30000 ms default
cap maxDelayMs — `apiRequestWithRetry` computes `retryDelay * 2 ^ attempt`
with no cap. -/
theorem C3_counterexample :
    retryBackoffDelay 1000 5 = 32000 ∧ ¬ retryBackoffDelay 1000 5 ≤ 30000 := by
  decide

/-- C3 (amended): the delay actually used by `apiRequestWithRetry`,
`retryDelay * 2 ^ attempt`, is non-decreasing in the attempt index but is
not capped; the cap and the additive jitter live only in the separate
helper `calculateRetryDelay` (not called by the controller), which is
bounded by maxDelay for every attempt and random draw, and non-decreasing
in the attempt index for every base delay ≥ 0 and draws in [0, 1). -/
theorem C3_delay_monotone_capped :
    (∀ d a : Nat, retryBackoffDelay d a ≤ retryBackoffDelay d (a + 1)) ∧
    (∀ (a : Nat) (b M r : ℚ), (calculateRetryDelay a b M r : ℚ) ≤ M) ∧
    (∀ (a : Nat) (b M r₁ r₂ : ℚ), 0 ≤ b → 0 ≤ r₂ → r₁ ≤ 1 →
      calculateRetryDelay a b M r₁ ≤ calculateRetryDelay (a + 1) b M r₂) := by
  refine ⟨?_, ?_, ?_⟩
  · intro d a
    unfold retryBackoffDelay
    exact Nat.mul_le_mul_left d (Nat.pow_le_pow_right (by norm_num) (Nat.le_succ a))
  · intro a b M r
    show ((⌊min (b * 2 ^ a + r * (3 / 10) * (b * 2 ^ a)) M⌋ : ℤ) : ℚ) ≤ M
    exact le_trans (Int.floor_le _) (min_le_right _ _)
  · intro a b M r₁ r₂ hb hr₂ hr₁
    show (⌊min (b * 2 ^ a + r₁ * (3 / 10) * (b * 2 ^ a)) M⌋ : ℤ)
        ≤ ⌊min (b * 2 ^ (a + 1) + r₂ * (3 / 10) * (b * 2 ^ (a + 1))) M⌋
    apply Int.floor_le_floor
    apply min_le_min _ le_rfl
    have he : (0 : ℚ) ≤ b * 2 ^ a := mul_nonneg hb (by positivity)
    have hj₂ : (0 : ℚ) ≤ r₂ * (3 / 10) * (b * 2 ^ (a + 1)) := by
      apply mul_nonneg (mul_nonneg hr₂ (by norm_num))
      exact mul_nonneg hb (by positivity)
    have h₁ : r₁ * (3 / 10) * (b * 2 ^ a) ≤ (3 / 10) * (b * 2 ^ a) := by
      have hh := mul_le_mul_of_nonneg_right hr₁
        (mul_nonneg (by norm_num : (0 : ℚ) ≤ 3 / 10) he)
      calc r₁ * (3 / 10) * (b * 2 ^ a)
          = r₁ * ((3 / 10) * (b * 2 ^ a)) := by ring
        _ ≤ 1 * ((3 / 10) * (b * 2 ^ a)) := hh
        _ = (3 / 10) * (b * 2 ^ a) := by ring
    have h₂ : b * 2 ^ (a + 1) = 2 * (b * 2 ^ a) := by ring
    rw [h₂] at hj₂ ⊢
    linarith [he, hj₂, h₁]

/-- C3 witness: monotonicity of the helper applied at attempt 0 with the
default base 1000, cap 30000, and draws 1 and 0. -/
theorem C3_delay_monotone_capped_witness :
    calculateRetryDelay 0 1000 30000 1 ≤ calculateRetryDelay 1 1000 30000 0 :=
  C3_delay_monotone_capped.2.2 0 1000 30000 1 0 (by norm_num) (by norm_num) le_rfl

/-- C4 counterexample: an exception thrown by fetch that is a TypeError
without "fetch" in its message (Node throws e.g. `Failed to parse URL
from ...`) is NOT surfaced as a NetworkError: the catch block wraps it
into a plain (base) ZeroDriveError with code INTERNAL_ERROR, and it is not
retryable. -/
theorem C4_counterexample :
    (apiRequestCatch "/api/v1/files"
        (.typeError "Failed to parse URL from /api/v1/files")).kind
      = ErrorKind.base ∧
    (apiRequestCatch "/api/v1/files"
        (.typeError "Failed to parse URL from /api/v1/files")).kind
      ≠ ErrorKind.network ∧
    (apiRequestCatch "/api/v1/files"
        (.typeError "Failed to parse URL from /api/v1/files")).retryable = false := by
  decide

/-- C4 (amended): only a TypeError whose message contains "fetch" is
normalized by the `apiRequest` catch block into the retryable
`NetworkError("Network request failed")`; any other TypeError is wrapped
into a non-retryable base ZeroDriveError (code INTERNAL_ERROR, original
class name in context); an already-classified ZeroDriveError passes
through the catch block unchanged. -/
theorem C4_fetch_fault_classification (endpoint m : String) :
    (strIncludes m "fetch" = true →
      apiRequestCatch endpoint (.typeError m)
        = mkNetworkError "Network request failed" {}) ∧
    (strIncludes m "fetch" = false →
      apiRequestCatch endpoint (.typeError m)
        = mkZeroDriveBase (if m = "" then "API request to " ++ endpoint ++ " failed" else m)
            .INTERNAL_ERROR 500 { originalError := some "TypeError" } false ∧
      (apiRequestCatch endpoint (.typeError m)).retryable = false) ∧
    (∀ e : ZeroDriveError, apiRequestCatch endpoint (.zde e) = e) := by
  refine ⟨?_, ?_, ?_⟩
  · intro h
    rw [apiRequestCatch, if_pos h]
  · intro h
    have hne : ¬ strIncludes m "fetch" = true := by rw [h]; exact Bool.false_ne_true
    constructor
    · rw [apiRequestCatch, if_neg hne]
      rfl
    · rw [apiRequestCatch, if_neg hne]
      rfl
  · intro e
    by_cases hk : (e.kind == ErrorKind.api || e.kind == ErrorKind.network) = true
    · rw [apiRequestCatch, if_pos hk]
    · rw [apiRequestCatch, if_neg hk]
      rfl

/-- C4 witness: the "fetch failed" TypeError becomes NetworkError and an
abort TypeError becomes the internal wrap. -/
theorem C4_fetch_fault_classification_witness :
    apiRequestCatch "/api/v1/files" (.typeError "fetch failed")
        = mkNetworkError "Network request failed" {} ∧
    apiRequestCatch "/api/v1/files" (.typeError "Request was aborted")
        = mkZeroDriveBase "Request was aborted" .INTERNAL_ERROR 500
            { originalError := some "TypeError" } false := by
  constructor
  · exact (C4_fetch_fault_classification "/api/v1/files" "fetch failed").1 (by decide)
  · have h := ((C4_fetch_fault_classification "/api/v1/files"
      "Request was aborted").2.1 (by decide)).1
    rw [if_neg (by decide)] at h
    exact h

/-- C6 counterexample: a call with the string body `""` (a body, and a
string body) sends NO body and NO Content-Type header — the code gates
both on JavaScript truthiness, and the empty string is falsy. -/
theorem C6_counterexample :
    (buildRequestInit "K" "POST" (JsValue.str "") []).body = none ∧
    jsObjGet (buildRequestInit "K" "POST" (JsValue.str "") []).headers
        "Content-Type" = none := by
  constructor <;> rfl

/-- C6 (amended): for every TRUTHY body with no caller-set Content-Type
entry, the request carries `Content-Type: application/json`; a truthy
string body is passed through unchanged as the raw body and a truthy
non-string body is serialized with JSON.stringify. A falsy body (the empty
string, 0, false, null, undefined) is dropped: no body is attached and no
Content-Type is added. -/
theorem C6_body_serialization (apiKey method : String) (body : JsValue)
    (headers : List (String × String)) :
    (jsTruthy body = true →
      (headers.all (fun kv => kv.1 != "Content-Type") = true →
        jsObjGet (buildRequestInit apiKey method body headers).headers
            "Content-Type" = some "application/json") ∧
      (∀ s : String, body = .str s →
        (buildRequestInit apiKey method body headers).body = some s) ∧
      ((∀ s : String, body ≠ .str s) →
        (buildRequestInit apiKey method body headers).body = jsonStringify body)) ∧
    (jsTruthy body = false →
      (buildRequestInit apiKey method body headers).body = none ∧
      (headers.all (fun kv => kv.1 != "Content-Type") = true →
        jsObjGet (buildRequestInit apiKey method body headers).headers
            "Content-Type" = none)) := by
  constructor
  · intro htruthy
    refine ⟨?_, ?_, ?_⟩
    · intro hall
      have hmerged : jsObjGet (mergedHeaders apiKey headers) "Content-Type" = none := by
        rw [mergedHeaders, jsObjGet_mergedFold headers "Content-Type" _ hall]
        rfl
      show jsObjGet (finalHeaders apiKey body headers) "Content-Type"
          = some "application/json"
      rw [finalHeaders, hmerged]
      rw [if_pos (by rw [htruthy]; rfl)]
      exact jsObjGet_set_self _ _ _
    · intro s hs
      subst hs
      show serializeBody (JsValue.str s) = some s
      rw [serializeBody, if_pos htruthy]
      rfl
    · intro hns
      show serializeBody body = jsonStringify body
      cases body with
      | undef => exact absurd htruthy (by decide)
      | null => exact absurd htruthy (by decide)
      | str s => exact absurd rfl (hns s)
      | bool b =>
        cases b with
        | false => exact absurd htruthy (by decide)
        | true => rfl
      | num n =>
        rw [serializeBody, if_pos htruthy]
        rfl
      | arr xs => rfl
      | obj fs => rfl
  · intro hfalsy
    constructor
    · show serializeBody body = none
      rw [serializeBody, if_neg (by rw [hfalsy]; exact Bool.false_ne_true)]
    · intro hall
      have hmerged : jsObjGet (mergedHeaders apiKey headers) "Content-Type" = none := by
        rw [mergedHeaders, jsObjGet_mergedFold headers "Content-Type" _ hall]
        rfl
      show jsObjGet (finalHeaders apiKey body headers) "Content-Type" = none
      rw [finalHeaders, if_neg (by rw [hfalsy]; simp)]
      exact hmerged

/-- C6 witness: the spec scenario — POST with body `\x7bname:"X"\x7d` and
no explicit Content-Type yields `Content-Type: application/json` and the
JSON-encoded raw body. -/
theorem C6_body_serialization_witness :
    jsObjGet (buildRequestInit "K" "POST" (JsValue.obj [("name", JsValue.str "X")])
        []).headers "Content-Type" = some "application/json" ∧
    (buildRequestInit "K" "POST" (JsValue.obj [("name", JsValue.str "X")]) []).body
        = jsonStringify (JsValue.obj [("name", JsValue.str "X")]) := by
  have h := C6_body_serialization "K" "POST" (JsValue.obj [("name", JsValue.str "X")]) []
  exact ⟨(h.1 rfl).1 rfl, (h.1 rfl).2.2 (fun s hs => JsValue.noConfusion hs)⟩

/-- If attempts `a .. a+k-1` fail retryably and attempt `a+k` succeeds
within the remaining budget, the loop returns the success after attempt
`a+k`. -/
theorem retryGo_ok {α : Type} (f : Nat → AttemptOutcome α) (v : α) :
    ∀ (k a r : Nat), k ≤ r →
      (∀ i, a ≤ i → i < a + k →
        ∃ e, f i = .failure e ∧ isRetryableError e = true) →
      f (a + k) = .success v →
      retryGo f a r = .ok v (a + k + 1) := by
  intro k
  induction k with
  | zero =>
    intro a r _ _ hs
    rw [retryGo, show f a = AttemptOutcome.success v from hs]
  | succ k ih =>
    intro a r hkr hfail hs
    obtain ⟨e, hfa, hret⟩ := hfail a (le_refl a) (by omega)
    obtain ⟨r', rfl⟩ : ∃ r', r = r' + 1 := ⟨r - 1, by omega⟩
    rw [retryGo, hfa]
    show (if isRetryableError e = false then RetryResult.err e (a + 1)
        else retryGo f (a + 1) r') = RetryResult.ok v (a + (k + 1) + 1)
    rw [if_neg (by simp [hret])]
    have hrec := ih (a + 1) r' (by omega)
      (fun i h1 h2 => hfail i (by omega) (by omega))
      (by rw [show a + 1 + k = a + (k + 1) from by omega]; exact hs)
    rw [show a + 1 + k + 1 = a + (k + 1) + 1 from by omega] at hrec
    exact hrec

/-- The loop starting at attempt `a` with `r` retries left makes at most
`a + r + 1` attempts in total. -/
theorem retryGo_attempts_le {α : Type} (f : Nat → AttemptOutcome α) :
    ∀ (r a : Nat), (retryGo f a r).attempts ≤ a + r + 1 := by
  intro r
  induction r with
  | zero =>
    intro a
    rw [retryGo]
    cases f a with
    | success v => show a + 1 ≤ a + 0 + 1; omega
    | failure e =>
      show (if isRetryableError e = false then RetryResult.err e (a + 1)
          else RetryResult.err e (a + 1)).attempts ≤ a + 0 + 1
      rw [ite_self]
      show a + 1 ≤ a + 0 + 1
      omega
  | succ r ih =>
    intro a
    rw [retryGo]
    cases f a with
    | success v => show a + 1 ≤ a + (r + 1) + 1; omega
    | failure e =>
      show (if isRetryableError e = false then RetryResult.err e (a + 1)
          else retryGo f (a + 1) r).attempts ≤ a + (r + 1) + 1
      split
      · show a + 1 ≤ a + (r + 1) + 1; omega
      · exact le_trans (ih (a + 1)) (by omega)

/-- Whatever error the loop re-raises is the error of the last attempt it
made. -/
theorem retryGo_err_src {α : Type} (f : Nat → AttemptOutcome α) :
    ∀ (r a n : Nat) (e : ThrownValue),
      retryGo f a r = .err e n → f (n - 1) = .failure e := by
  intro r
  induction r with
  | zero =>
    intro a n e h
    cases hf : f a with
    | success v =>
      rw [retryGo, hf] at h
      exact RetryResult.noConfusion h
    | failure e' =>
      rw [retryGo, hf] at h
      have h2 : (if isRetryableError e' = false then RetryResult.err e' (a + 1)
          else RetryResult.err e' (a + 1)) = RetryResult.err e n := h
      rw [ite_self] at h2
      injection h2 with h3 h4
      subst h3
      subst h4
      exact hf
  | succ r ih =>
    intro a n e h
    cases hf : f a with
    | success v =>
      rw [retryGo, hf] at h
      exact RetryResult.noConfusion h
    | failure e' =>
      rw [retryGo, hf] at h
      have h2 : (if isRetryableError e' = false then RetryResult.err e' (a + 1)
          else retryGo f (a + 1) r) = RetryResult.err e n := h
      by_cases hc : isRetryableError e' = false
      · rw [if_pos hc] at h2
        injection h2 with h3 h4
        subst h3
        subst h4
        exact hf
      · rw [if_neg hc] at h2
        exact ih (a + 1) n e h2

/-- C7: with N retryable failures then a success (N within budget), the
Retry Controller makes exactly N+1 attempts and returns the success value;
every execution makes at most maxRetries + 1 attempts; and any error the
controller re-raises is exactly the error of the last attempt it made. -/
theorem C7_retry_controller (α : Type) (f : Nat → AttemptOutcome α)
    (maxRetries N : Nat) (v : α)
    (hN : N ≤ maxRetries)
    (hfail : ∀ i, i < N → ∃ e, f i = .failure e ∧ isRetryableError e = true)
    (hsucc : f N = .success v) :
    apiRequestWithRetryModel f maxRetries = .ok v (N + 1) ∧
    (∀ (β : Type) (g : Nat → AttemptOutcome β) (m : Nat),
      (apiRequestWithRetryModel g m).attempts ≤ m + 1) ∧
    (∀ (β : Type) (g : Nat → AttemptOutcome β) (m n : Nat) (e : ThrownValue),
      apiRequestWithRetryModel g m = .err e n → g (n - 1) = .failure e) := by
  refine ⟨?_, ?_, ?_⟩
  · have h := retryGo_ok f v N 0 maxRetries hN
      (fun i h1 h2 => hfail i (by omega))
      (by rw [Nat.zero_add]; exact hsucc)
    rw [apiRequestWithRetryModel, h, Nat.zero_add]
  · intro β g m
    have h := retryGo_attempts_le g m 0
    rw [apiRequestWithRetryModel]
    omega
  · intro β g m n e h
    exact retryGo_err_src g m 0 n e h

/-- C7 witness: one retryable network failure then a success, with
maxRetries 3 — exactly 2 attempts, success value returned. -/
def c7Attempts : Nat → AttemptOutcome Nat :=
  fun i =>
    if i = 0 then .failure (.zde (mkNetworkError "Network request failed" {}))
    else .success 7

/-- C7 witness: the theorem applied to the concrete two-outcome schedule. -/
theorem C7_retry_controller_witness :
    apiRequestWithRetryModel c7Attempts 3 = .ok 7 2 :=
  (C7_retry_controller Nat c7Attempts 3 1 7 (by omega)
    (fun i hi =>
      ⟨.zde (mkNetworkError "Network request failed" {}), by
        have h0 : i = 0 := by omega
        subst h0
        exact ⟨rfl, rfl⟩⟩)
    rfl).1

/-- C8: a 4xx status other than 429 classifies as non-retryable, and when
the first attempt of `apiRequestWithRetry` throws that classified error,
the controller re-raises it after exactly 1 attempt, whatever maxRetries
is. -/
theorem C8_no_retry_on_4xx (status : Nat) (body : ErrorBody) (hdr : Option String)
    (endpoint : String) (h4 : 400 ≤ status) (h5 : status < 500)
    (h429 : status ≠ 429) :
    (handleErrorResponse status body hdr endpoint).retryable = false ∧
    (∀ (α : Type) (f : Nat → AttemptOutcome α) (maxRetries : Nat),
      f 0 = .failure (.zde (handleErrorResponse status body hdr endpoint)) →
      apiRequestWithRetryModel f maxRetries
        = .err (.zde (handleErrorResponse status body hdr endpoint)) 1) := by
  have htable : (classifierTable status).2 = false := by
    unfold classifierTable
    split_ifs <;> first
      | rfl
      | omega
      | (show (decide (500 ≤ status) || decide (status = 429)) = false
         rw [decide_eq_false (by omega : ¬ 500 ≤ status),
           decide_eq_false h429, Bool.or_self])
  have hret : (handleErrorResponse status body hdr endpoint).retryable = false := by
    have h2 : (handleErrorResponse status body hdr endpoint).retryable
        = (classifierTable status).2 :=
      congrArg Prod.snd (classify_pair_eq status body hdr endpoint)
    rw [h2]
    exact htable
  refine ⟨hret, ?_⟩
  intro α f m h0
  rw [apiRequestWithRetryModel]
  cases m with
  | zero =>
    rw [retryGo, h0]
    show (if isRetryableError (.zde (handleErrorResponse status body hdr endpoint)) = false
        then RetryResult.err (.zde (handleErrorResponse status body hdr endpoint)) (0 + 1)
        else RetryResult.err (.zde (handleErrorResponse status body hdr endpoint)) (0 + 1))
      = RetryResult.err (.zde (handleErrorResponse status body hdr endpoint)) 1
    rw [ite_self]
  | succ r =>
    rw [retryGo, h0]
    show (if isRetryableError (.zde (handleErrorResponse status body hdr endpoint)) = false
        then RetryResult.err (.zde (handleErrorResponse status body hdr endpoint)) (0 + 1)
        else retryGo f (0 + 1) r)
      = RetryResult.err (.zde (handleErrorResponse status body hdr endpoint)) 1
    rw [if_pos (show isRetryableError (.zde (handleErrorResponse status body hdr endpoint)) = false from hret)]

/-- The attempt schedule used by the C8 witness: every attempt throws the
classified 400 error. -/
def c8Attempts : Nat → AttemptOutcome Nat :=
  fun _ => .failure (.zde (handleErrorResponse 400
    (ErrorBody.json "Bad request" none) none "/api/v1/files"))

/-- C8 witness: a concrete 400 response — not retryable, and exactly one
attempt is made with maxRetries = 3. -/
theorem C8_no_retry_on_4xx_witness :
    (handleErrorResponse 400 (ErrorBody.json "Bad request" none) none
        "/api/v1/files").retryable = false ∧
    apiRequestWithRetryModel c8Attempts 3
      = .err (.zde (handleErrorResponse 400 (ErrorBody.json "Bad request" none)
          none "/api/v1/files")) 1 := by
  have h := C8_no_retry_on_4xx 400 (ErrorBody.json "Bad request" none) none
    "/api/v1/files" (by omega) (by omega) (by omega)
  exact ⟨h.1, h.2 Nat c8Attempts 3 rfl⟩

end ZeroDrive
